import Mathlib

/-!
Shallow embedding of the SchwabPy request executor (src/schwabpy/client.py)
and URL utilities (src/schwabpy/utils.py), with theorems settling the
claims about the library's natural-language specification.

Modelling conventions:
* Python JSON values are the inductive `Json`; a Python `dict` is `Json.obj`
  over an association list (keys assumed unique, as produced by `json.loads`).
* A `requests.Response` is `HttpResponse`: its decoded body text (`body`,
  standing for both `response.text` and the emptiness test on
  `response.content`), and `json?`, the result of `response.json()`
  (`none` models the `ValueError` raised on an unparseable body).
* Exceptions raised by the client are `SchwabError` records (kind, message,
  optional status code, optional reference to the raw response), mirroring
  the constructor calls in `client.py`; the exception classes themselves
  live in `schwabpy/exceptions.py` and are plain `Exception` subclasses,
  so they are not caught by the `requests.exceptions` handlers.
* `Outcome.crashed` models an uncaught non-library Python exception
  (e.g. the `TypeError` from indexing a non-dict JSON value).
* `_request` elides URL construction, query parameters, the JSON body and
  logging: none of them influence the observable behaviour the claims are
  about.  The transport (`self._session.request`) is an oracle
  `Nat → TransportOutcome` giving the outcome of each successive attempt;
  the code consumes attempt 0 only.  The `events` trace records the
  side effects the code performs, in order.
-/

namespace SchwabPy

/-- Python JSON values (the possible results of `response.json()`). -/
inductive Json where
  | null
  | bool (b : Bool)
  | num (n : Int)
  | str (s : String)
  | arr (elems : List Json)
  | obj (fields : List (String × Json))

/-- Python substring test `pat in s` for strings. -/
def strContainsSub (s pat : String) : Bool :=
  (List.range (s.data.length + 1)).any (fun i => pat.data.isPrefixOf (s.data.drop i))

/-- Python `key in value` on a JSON value: key membership for a dict,
element membership for a list, substring test for a string; `none` models
the `TypeError` raised when the value is not a container (null/bool/number). -/
def pyContains (j : Json) (k : String) : Option Bool :=
  match j with
  | .obj kvs => some (kvs.lookup k).isSome
  | .arr l => some (l.any (fun x => match x with | .str s => s = k | _ => false))
  | .str s => some (strContainsSub s k)
  | _ => none

/-- Python `value[key]` on a JSON value: `none` models the `TypeError`
raised when the value is not a dict. -/
def pyGetItem (j : Json) (k : String) : Option Json :=
  match j with
  | .obj kvs => kvs.lookup k
  | _ => none

/-- A `requests.Response` as observed by `_handle_response`. -/
structure HttpResponse where
  status : Nat
  body : String
  json? : Option Json

/-- The error kinds of schwabpy/exceptions.py raised by client.py. -/
inductive ErrKind where
  | badRequest
  | unauthorized
  | forbidden
  | notFound
  | rateLimit
  | server
  | api
  | authentication

/-- A raised schwabpy exception: kind, message (any Python value; plain
strings wrapped as `Json.str`), optional status code, optional reference to
the raw response. -/
structure SchwabError where
  kind : ErrKind
  message : Json
  status? : Option Nat
  response? : Option HttpResponse

/-- Result of a call into the client: a returned value, a raised schwabpy
exception, or an uncaught non-library Python exception. -/
inductive Outcome where
  | ok (v : Json)
  | raised (e : SchwabError)
  | crashed

/-- SchwabClient._handle_response (src/schwabpy/client.py lines 242-295),
translated branch by branch.  The Python return value `{}` for 204/empty
bodies is the empty dict `Json.obj []`; `response.text` results are
`Json.str`. -/
def _handle_response (r : HttpResponse) : Outcome :=
  if 200 ≤ r.status ∧ r.status < 300 then
    if r.status = 204 ∨ r.body = "" then .ok (.obj [])
    else
      match r.json? with
      | some j => .ok j
      | none => .ok (.str r.body)
  else
    let raiseIt : Json → Outcome := fun msg =>
      if r.status = 400 then .raised ⟨.badRequest, msg, some r.status, some r⟩
      else if r.status = 401 then .raised ⟨.unauthorized, msg, some r.status, some r⟩
      else if r.status = 403 then .raised ⟨.forbidden, msg, some r.status, some r⟩
      else if r.status = 404 then .raised ⟨.notFound, msg, some r.status, some r⟩
      else if r.status = 429 then .raised ⟨.rateLimit, msg, some r.status, some r⟩
      else if 500 ≤ r.status then .raised ⟨.server, msg, some r.status, some r⟩
      else .raised ⟨.api, msg, some r.status, some r⟩
    let generic := "API error " ++ toString r.status
    match r.json? with
    | some d =>
      match pyContains d "message" with
      | none => .crashed
      | some true =>
        match pyGetItem d "message" with
        | some v => raiseIt v
        | none => .crashed
      | some false =>
        match pyContains d "error" with
        | none => .crashed
        | some true =>
          match pyGetItem d "error" with
          | some v => raiseIt v
          | none => .crashed
        | some false => raiseIt (.str generic)
    | none =>
      raiseIt (.str (if r.body = "" then generic else r.body))

/-- Outcome of one call of the transport `self._session.request`. -/
inductive TransportOutcome where
  | timeout
  | connectionError (msg : String)
  | requestException (msg : String)
  | response (r : HttpResponse)

/-- The observable side effects `_request` performs, in order.  `sleep`
and any rate-limiter bookkeeping would appear here if the code performed
them. -/
inductive Effect where
  | getAccessToken
  | sleep
  | transportCall (headers : List (String × String))

/-- Result of `SchwabClient._request`: the outcome plus the ordered trace
of side effects performed. -/
structure RequestResult where
  outcome : Outcome
  events : List Effect

/-- Python `base.update(upd)` on a string-keyed dict, as a key-value map
(entry order is immaterial to every claim): entries of `base` whose key
occurs in `upd` are overwritten, the rest kept. -/
def updateHeaders (base upd : List (String × String)) : List (String × String) :=
  base.filter (fun p => (upd.lookup p.1).isNone) ++ upd

/-- SchwabClient._request (src/schwabpy/client.py lines 160-240).
`auth` is the result of `self.auth.get_access_token()` (an
`AuthenticationError` is logged and re-raised, every failure propagates
unchanged); `callerHeaders` is the optional `headers` entry of `kwargs`;
`transport` gives the outcome of each successive `self._session.request`
call.  The code performs no retry loop: it consumes transport attempt 0
only, whatever the HTTP method. -/
def _request (method : String) (timeoutCfg : Nat)
    (auth : Except SchwabError String)
    (callerHeaders : Option (List (String × String)))
    (transport : Nat → TransportOutcome) : RequestResult :=
  match auth with
  | .error e => ⟨.raised e, [.getAccessToken]⟩
  | .ok tok =>
    let headers :=
      match callerHeaders with
      | none => [("Authorization", "Bearer " ++ tok)]
      | some hs => updateHeaders [("Authorization", "Bearer " ++ tok)] hs
    let events := [Effect.getAccessToken, Effect.transportCall headers]
    match transport 0 with
    | .timeout =>
      ⟨.raised ⟨.api, .str ("Request timeout after " ++ toString timeoutCfg ++ " seconds"),
        none, none⟩, events⟩
    | .connectionError m =>
      ⟨.raised ⟨.api, .str ("Connection error: " ++ m), none, none⟩, events⟩
    | .requestException m =>
      ⟨.raised ⟨.api, .str ("Request failed: " ++ m), none, none⟩, events⟩
    | .response r => ⟨_handle_response r, events⟩

/-- Number of transport calls in a trace. -/
def transportAttempts (res : RequestResult) : Nat :=
  res.events.countP (fun e => match e with | .transportCall _ => true | _ => false)

/-- Headers of each transport call made, in order. -/
def sentHeaders (res : RequestResult) : List (List (String × String)) :=
  res.events.filterMap (fun e => match e with | .transportCall h => some h | _ => none)

/-! ## utils.py: build_url and its helpers -/

/-- Python `s.rstrip('/')`: remove every trailing `'/'`. -/
def stripTrailingSlashes (s : String) : String :=
  String.mk ((s.data.reverse.dropWhile (fun c => c = '/')).reverse)

/-- Python `s.lstrip('/')`: remove every leading `'/'`. -/
def stripLeadingSlashes (s : String) : String :=
  String.mk (s.data.dropWhile (fun c => c = '/'))

/-- Uppercase hexadecimal digit character for `n < 16`. -/
def hexDigitChar (n : Nat) : Char :=
  if n < 10 then Char.ofNat (48 + n) else Char.ofNat (55 + n)

/-- Bytes that `urllib.parse.quote_plus` leaves unencoded with `safe=''`:
ASCII letters, digits, and `_ . - ~`. -/
def isUrlSafeByte (n : Nat) : Bool :=
  (48 ≤ n && n ≤ 57) || (65 ≤ n && n ≤ 90) || (97 ≤ n && n ≤ 122) ||
    n = 95 || n = 46 || n = 45 || n = 126

/-- The UTF-8 encoding of one character, as byte values. -/
def utf8Bytes (c : Char) : List Nat :=
  let n := c.toNat
  if n < 128 then [n]
  else if n < 2048 then [192 + n / 64, 128 + n % 64]
  else if n < 65536 then [224 + n / 4096, 128 + (n / 64) % 64, 128 + n % 64]
  else [240 + n / 262144, 128 + (n / 4096) % 64, 128 + (n / 64) % 64, 128 + n % 64]

/-- Python `urllib.parse.quote_plus(s, safe='')`, as `urlencode` applies it:
UTF-8 encode, keep safe bytes, map space to `'+'`, percent-encode the rest
with uppercase hex. -/
def quote_plus (s : String) : String :=
  String.join ((s.data.flatMap utf8Bytes).map (fun b =>
    if isUrlSafeByte b then (Char.ofNat b).toString
    else if b = 32 then "+"
    else "%" ++ (hexDigitChar (b / 16)).toString ++ (hexDigitChar (b % 16)).toString))

/-- Python `urllib.parse.urlencode` over a string-valued dict: ampersand-join
the `quote_plus`-encoded `key=value` pairs in insertion order. -/
def urlencode (ps : List (String × String)) : String :=
  String.intercalate "&" (ps.map (fun p => quote_plus p.1 ++ "=" ++ quote_plus p.2))

/-- The parameters whose value is not `None` (Python
`\x7bk: v for k, v in params.items() if v is not None\x7d`). -/
def filterNoneValues (ps : List (String × Option String)) : List (String × String) :=
  ps.filterMap (fun p => p.2.map (fun v => (p.1, v)))

/-- build_url (src/schwabpy/utils.py lines 29-49).  `params = none` models
the Python default `params=None`; the emptiness tests mirror Python dict
truthiness (`if params:` and `if filtered_params:`). -/
def build_url (base_url endpoint : String)
    (params : Option (List (String × Option String))) : String :=
  let url := stripTrailingSlashes base_url ++ "/" ++ stripLeadingSlashes endpoint
  match params with
  | none => url
  | some ps =>
    if ps.isEmpty then url
    else
      let filtered := filterNoneValues ps
      if filtered.isEmpty then url
      else url ++ "?" ++ urlencode filtered

/-! ## Concrete fixtures used by the claim theorems -/

/-- A GET request whose first transport attempt times out and whose second
would succeed with `200 \x7b"data": "ok"\x7d`. -/
def timeoutThenOkTransport : Nat → TransportOutcome := fun n =>
  if n = 0 then .timeout
  else .response ⟨200, "ok-body", some (.obj [("data", .str "ok")])⟩

/-- A transport on which every attempt times out. -/
def alwaysTimeoutTransport : Nat → TransportOutcome := fun _ => .timeout

/-- The claim's status-code-to-error-kind table, written from the claim's
words (400 bad request, 401 unauthorized, 403 forbidden, 404 not found,
429 rate limit, any status at or above 500 server error, any other non-2xx
the generic kind), for comparison with `_handle_response`. -/
def specStatusKind (s : Nat) : ErrKind :=
  if s = 400 then .badRequest
  else if s = 401 then .unauthorized
  else if s = 403 then .forbidden
  else if s = 404 then .notFound
  else if s = 429 then .rateLimit
  else if 500 ≤ s then .server
  else .api

/-- A 400 response whose body parses to a JSON object with neither a
`message` nor an `error` field. -/
def fieldlessJsonResponse : HttpResponse :=
  ⟨400, "\x7b\"detail\": \"x\"\x7d", some (.obj [("detail", .str "x")])⟩

/-! ## Claim theorems -/

/-- C1: the claim says a GET whose first transport attempt times out and
whose second would succeed yields the success value after exactly 2
transport attempts; the code performs no retry for any method, so the GET
surfaces a generic `APIError` after exactly 1 transport attempt. -/
theorem C1_code_eval :
    _request "GET" 30 (.ok "tok") none timeoutThenOkTransport =
      ⟨.raised ⟨.api, .str "Request timeout after 30 seconds", none, none⟩,
       [.getAccessToken, .transportCall [("Authorization", "Bearer tok")]]⟩ ∧
    transportAttempts (_request "GET" 30 (.ok "tok") none timeoutThenOkTransport) = 1 :=
  ⟨rfl, rfl⟩

/-- C2: the claim says every outbound transport call is preceded by
sliding-window rate-limiter admission that sleeps when the window is
saturated; the code performs no admission at all — no sleep ever occurs in
the effect trace of any `_request` call. -/
theorem C2_code_eval (method : String) (timeoutCfg : Nat)
    (auth : Except SchwabError String)
    (callerHeaders : Option (List (String × String)))
    (transport : Nat → TransportOutcome) :
    Effect.sleep ∉ (_request method timeoutCfg auth callerHeaders transport).events := by
  cases auth with
  | error e => simp [_request]
  | ok tok =>
    cases h : transport 0 <;> simp [_request, h]

/-- C3: the claim says a closed client fails without making a transport
call; the code has no close operation and no closed-session check — every
`_request` call with a token performs exactly one transport call,
whatever the state. -/
theorem C3_code_eval (method : String) (timeoutCfg : Nat) (tok : String)
    (callerHeaders : Option (List (String × String)))
    (transport : Nat → TransportOutcome) :
    transportAttempts (_request method timeoutCfg (.ok tok) callerHeaders transport) = 1 := by
  cases h : transport 0 <;>
    simp [_request, h, transportAttempts, List.countP, List.countP.go]

/-- C5: the claim says a GET failing on every attempt raises an `APIError`
after exactly 4 transport attempts with a message naming the attempt count;
the code makes exactly 1 transport attempt and its message names the
configured timeout in seconds — the word "attempts" does not occur in it. -/
theorem C5_code_eval :
    _request "GET" 30 (.ok "tok") none alwaysTimeoutTransport =
      ⟨.raised ⟨.api, .str "Request timeout after 30 seconds", none, none⟩,
       [.getAccessToken, .transportCall [("Authorization", "Bearer tok")]]⟩ ∧
    transportAttempts (_request "GET" 30 (.ok "tok") none alwaysTimeoutTransport) = 1 ∧
    strContainsSub "Request timeout after 30 seconds" "attempts" = false :=
  ⟨rfl, rfl, by decide⟩

/-- C6: a 2xx response with status 204 or an empty body yields the empty
value; otherwise a JSON-parseable body yields the parsed value and a
non-JSON body yields the raw response text. -/
theorem C6_theorem (r : HttpResponse) (h2 : 200 ≤ r.status ∧ r.status < 300) :
    ((r.status = 204 ∨ r.body = "") → _handle_response r = .ok (.obj [])) ∧
    (r.status ≠ 204 → r.body ≠ "" → ∀ j, r.json? = some j → _handle_response r = .ok j) ∧
    (r.status ≠ 204 → r.body ≠ "" → r.json? = none → _handle_response r = .ok (.str r.body)) := by
  refine ⟨fun he => ?_, fun h204 hb j hj => ?_, fun h204 hb hj => ?_⟩ <;>
    simp_all [_handle_response]

/-- C6 witness: evaluation at concrete 2xx responses. -/
theorem C6_witness :
    ((200:Nat) ≤ 204 ∧ (204:Nat) < 300) ∧
    _handle_response ⟨204, "", none⟩ = .ok (.obj []) ∧
    _handle_response ⟨200, "body-text", some (.str "parsed")⟩ = .ok (.str "parsed") ∧
    _handle_response ⟨200, "plain text", none⟩ = .ok (.str "plain text") :=
  ⟨by decide,
   (C6_theorem ⟨204, "", none⟩ (by decide)).1 (Or.inl rfl),
   (C6_theorem ⟨200, "body-text", some (.str "parsed")⟩ (by decide)).2.1
     (by decide) (by decide) _ rfl,
   (C6_theorem ⟨200, "plain text", none⟩ (by decide)).2.2 (by decide) (by decide) rfl⟩

/-- C8: a transport failure with no HTTP status — timeout, connection
failure, or any other transport exception — surfaces from `_request` as the
generic `APIError` kind, with no status code and no response reference. -/
theorem C8_theorem (method : String) (timeoutCfg : Nat) (tok : String)
    (callerHeaders : Option (List (String × String)))
    (transport : Nat → TransportOutcome)
    (hfail : transport 0 = .timeout ∨ (∃ m, transport 0 = .connectionError m) ∨
      (∃ m, transport 0 = .requestException m)) :
    ∃ msg, (_request method timeoutCfg (.ok tok) callerHeaders transport).outcome =
      .raised ⟨.api, .str msg, none, none⟩ := by
  rcases hfail with h | ⟨m, h⟩ | ⟨m, h⟩
  · exact ⟨"Request timeout after " ++ toString timeoutCfg ++ " seconds",
      by simp [_request, h]⟩
  · exact ⟨"Connection error: " ++ m, by simp [_request, h]⟩
  · exact ⟨"Request failed: " ++ m, by simp [_request, h]⟩

/-- C4 counterexample: the claim says that when the JSON body has neither a
`message` nor an `error` field the message falls back to the raw response
text; on a 400 response with such a body the code keeps the generic
"API error 400" string instead, even though the raw text is nonempty. -/
theorem C4_counterexample :
    _handle_response fieldlessJsonResponse =
      .raised ⟨.badRequest, .str "API error 400", some 400, some fieldlessJsonResponse⟩ ∧
    fieldlessJsonResponse.body ≠ "" ∧
    "API error 400" ≠ fieldlessJsonResponse.body :=
  ⟨rfl, by decide, by decide⟩

/-- C4 (amended): for every non-2xx response whose body either fails to
parse as JSON or parses to a JSON object, `_handle_response` raises the
error kind given by the claim's status table, carrying the status code, a
reference to the raw response, and a message taken from the object's
`message` field if present, else its `error` field, else the generic
"API error \x7bstatus\x7d" string when the body parsed, else the raw
response text when nonempty, else the generic string. -/
theorem C4_theorem (r : HttpResponse)
    (h2 : ¬ (200 ≤ r.status ∧ r.status < 300))
    (hj : r.json? = none ∨ ∃ kvs, r.json? = some (.obj kvs)) :
    _handle_response r =
      .raised ⟨specStatusKind r.status,
        (match r.json? with
         | some (.obj kvs) =>
           (kvs.lookup "message").getD ((kvs.lookup "error").getD
             (.str ("API error " ++ toString r.status)))
         | _ => .str (if r.body = "" then "API error " ++ toString r.status else r.body)),
        some r.status, some r⟩ := by
  rcases hj with hj | ⟨kvs, hj⟩
  · simp only [_handle_response, hj, if_neg h2, specStatusKind]
    split_ifs <;> rfl
  · simp only [_handle_response, hj, if_neg h2, pyContains, pyGetItem, specStatusKind]
    cases hm : kvs.lookup "message" with
    | some v => simp only [hm, Option.isSome_some, Option.getD_some]; split_ifs <;> rfl
    | none =>
      cases he : kvs.lookup "error" with
      | some v =>
        simp only [hm, he, Option.isSome_some, Option.isSome_none, Option.getD_some,
          Option.getD_none]
        split_ifs <;> rfl
      | none =>
        simp only [hm, he, Option.isSome_none, Option.getD_none]
        split_ifs <;> rfl

/-- C4 witness: a 404 with an empty unparseable body raises `NotFoundError`
with the generic message, the status code, and the raw response. -/
theorem C4_witness :
    (¬ ((200:Nat) ≤ 404 ∧ (404:Nat) < 300)) ∧
    _handle_response ⟨404, "", none⟩ =
      .raised ⟨specStatusKind 404, .str "API error 404", some 404, some ⟨404, "", none⟩⟩ :=
  ⟨by decide, C4_theorem ⟨404, "", none⟩ (by decide) (Or.inl rfl)⟩

/-- C8 witness: a timed-out GET yields the generic `APIError` kind. -/
theorem C8_witness :
    alwaysTimeoutTransport 0 = .timeout ∧
    ∃ msg, (_request "GET" 30 (.ok "tok") none alwaysTimeoutTransport).outcome =
      .raised ⟨.api, .str msg, none, none⟩ :=
  ⟨rfl, C8_theorem "GET" 30 "tok" none alwaysTimeoutTransport (Or.inl rfl)⟩

/-- Once a token is obtained, `_request` makes exactly one transport call,
and its headers are the bearer header updated with the caller's headers. -/
lemma sentHeaders_request (method : String) (timeoutCfg : Nat) (tok : String)
    (callerHeaders : Option (List (String × String)))
    (transport : Nat → TransportOutcome) :
    sentHeaders (_request method timeoutCfg (.ok tok) callerHeaders transport) =
      [match callerHeaders with
       | none => [("Authorization", "Bearer " ++ tok)]
       | some hs => updateHeaders [("Authorization", "Bearer " ++ tok)] hs] := by
  cases h : transport 0 <;> simp [_request, h, sentHeaders, List.filterMap]

/-- C7 counterexample: the claim says every request attaches the acquired
token as the Bearer value of the outgoing Authorization header; a caller
that passes its own Authorization header replaces the bearer token, so the
outgoing header is not the Bearer value. -/
theorem C7_counterexample :
    sentHeaders (_request "GET" 30 (.ok "tok")
        (some [("Authorization", "Basic abc")]) alwaysTimeoutTransport) =
      [[("Authorization", "Basic abc")]] ∧
    ("Basic abc" : String) ≠ "Bearer tok" :=
  ⟨rfl, by decide⟩

/-- C7 (amended): every request first obtains the access token, propagating
a token-acquisition failure to the caller unchanged with no transport call
made; when the token is obtained and the caller supplies no Authorization
header, every transport call carries the token as a Bearer value in its
Authorization header. -/
theorem C7_theorem (method : String) (timeoutCfg : Nat)
    (auth : Except SchwabError String)
    (callerHeaders : Option (List (String × String)))
    (transport : Nat → TransportOutcome) :
    (∀ e, auth = .error e →
      _request method timeoutCfg auth callerHeaders transport =
        ⟨.raised e, [.getAccessToken]⟩) ∧
    ((_request method timeoutCfg auth callerHeaders transport).events.head? =
      some .getAccessToken) ∧
    (∀ tok, auth = .ok tok →
      (callerHeaders = none ∨
        ∃ chs, callerHeaders = some chs ∧ chs.lookup "Authorization" = none) →
      ∀ h ∈ sentHeaders (_request method timeoutCfg auth callerHeaders transport),
        h.lookup "Authorization" = some ("Bearer " ++ tok)) := by
  refine ⟨fun e he => by subst he; rfl, ?_, ?_⟩
  · cases auth with
    | error e => rfl
    | ok tok => cases h : transport 0 <;> simp [_request, h]
  · rintro tok rfl (rfl | ⟨chs, rfl, hchs⟩) h hmem <;>
      rw [sentHeaders_request] at hmem <;> simp at hmem <;> subst hmem
    · simp [List.lookup]
    · simp [updateHeaders, hchs, List.lookup]

/-- C7 witness: a failing token acquisition propagates unchanged with no
transport call, and with no caller headers the transport call carries the
Bearer token. -/
theorem C7_witness :
    _request "GET" 30
        (.error ⟨.authentication, .str "No refresh token available", none, none⟩)
        none alwaysTimeoutTransport =
      ⟨.raised ⟨.authentication, .str "No refresh token available", none, none⟩,
       [.getAccessToken]⟩ ∧
    ∀ h ∈ sentHeaders (_request "GET" 30 (.ok "tok") none alwaysTimeoutTransport),
      h.lookup "Authorization" = some ("Bearer " ++ "tok") :=
  ⟨( C7_theorem "GET" 30
      (.error ⟨.authentication, .str "No refresh token available", none, none⟩)
      none alwaysTimeoutTransport).1 _ rfl,
   ( C7_theorem "GET" 30 (.ok "tok") none alwaysTimeoutTransport).2.2
      "tok" rfl (Or.inl rfl)⟩

/-- C9: when the caller supplies an Authorization entry in the `headers`
keyword argument, the caller-supplied value replaces the bearer token in
the headers of the outgoing transport request. -/
theorem C9_theorem (method : String) (timeoutCfg : Nat) (tok : String)
    (callerHeaders : List (String × String)) (v : String)
    (transport : Nat → TransportOutcome)
    (hv : callerHeaders.lookup "Authorization" = some v) :
    ∀ h ∈ sentHeaders (_request method timeoutCfg (.ok tok)
        (some callerHeaders) transport),
      h.lookup "Authorization" = some v := by
  rw [sentHeaders_request]
  intro h hmem
  simp at hmem
  subst hmem
  simp [updateHeaders, hv, List.lookup]

/-- C9 witness: a caller-supplied Authorization value is the one sent. -/
theorem C9_witness :
    ([("Authorization", "Basic xyz"), ("X-Custom", "y")].lookup "Authorization" =
      some "Basic xyz") ∧
    ∀ h ∈ sentHeaders (_request "GET" 30 (.ok "tok")
        (some [("Authorization", "Basic xyz"), ("X-Custom", "y")])
        alwaysTimeoutTransport),
      h.lookup "Authorization" = some "Basic xyz" :=
  ⟨by decide,
   C9_theorem "GET" 30 "tok" [("Authorization", "Basic xyz"), ("X-Custom", "y")]
     "Basic xyz" alwaysTimeoutTransport (by decide)⟩

/-- The head of `dropWhile p l`, when present, fails `p`. -/
lemma head_dropWhile_false {α : Type} (p : α → Bool) :
    ∀ (l : List α) (a : α), (l.dropWhile p).head? = some a → p a = false := by
  intro l
  induction l with
  | nil => simp [List.dropWhile]
  | cons x xs ih =>
    intro a h
    by_cases hx : p x = true
    · rw [List.dropWhile_cons, if_pos hx] at h
      exact ih a h
    · rw [List.dropWhile_cons, if_neg hx] at h
      simp only [List.head?_cons, Option.some.injEq] at h
      subst h
      simpa using hx

/-- A character of the trailing-slash-stripped string occurs in the
original string. -/
lemma mem_stripTrailingSlashes {c : Char} {s : String}
    (h : c ∈ (stripTrailingSlashes s).data) : c ∈ s.data := by
  simp only [stripTrailingSlashes, List.mem_reverse] at h
  have := (List.dropWhile_sublist (l := s.data.reverse)
    (p := fun x => x = '/')).subset h
  simpa using this

/-- A character of the leading-slash-stripped string occurs in the
original string. -/
lemma mem_stripLeadingSlashes {c : Char} {s : String}
    (h : c ∈ (stripLeadingSlashes s).data) : c ∈ s.data := by
  simp only [stripLeadingSlashes] at h
  exact (List.dropWhile_sublist (l := s.data) (p := fun x => x = '/')).subset h

/-- Stripping trailing slashes leaves no trailing slash. -/
lemma stripTrailingSlashes_no_trailing (s : String) :
    (stripTrailingSlashes s).data.getLast? ≠ some '/' := by
  intro h
  simp only [stripTrailingSlashes, List.getLast?_reverse] at h
  have := head_dropWhile_false (fun x => x = '/') s.data.reverse '/' h
  simp at this

/-- Stripping leading slashes leaves no leading slash. -/
lemma stripLeadingSlashes_no_leading (s : String) :
    (stripLeadingSlashes s).data.head? ≠ some '/' := by
  intro h
  have := head_dropWhile_false (fun x => x = '/') s.data '/' h
  simp at this

/-- What was removed by stripping trailing slashes is a run of slashes. -/
lemma stripTrailingSlashes_decomp (s : String) :
    ∃ k, s.data = (stripTrailingSlashes s).data ++ List.replicate k '/' := by
  have htake : ∃ k, (s.data.reverse.takeWhile (fun x => x = '/')).reverse =
      List.replicate k '/' := by
    refine ⟨(s.data.reverse.takeWhile (fun x => x = '/')).length, ?_⟩
    rw [List.eq_replicate_iff]
    refine ⟨by simp, fun b hb => ?_⟩
    rw [List.mem_reverse] at hb
    simpa using List.mem_takeWhile_imp hb
  obtain ⟨k, hk⟩ := htake
  refine ⟨k, ?_⟩
  conv_lhs => rw [← List.reverse_reverse s.data,
    ← List.takeWhile_append_dropWhile (p := fun x => x = '/') (l := s.data.reverse)]
  rw [List.reverse_append, hk]
  rfl

/-- What is removed by stripping leading slashes is a run of slashes. -/
lemma stripLeadingSlashes_decomp (s : String) :
    ∃ k, s.data = List.replicate k '/' ++ (stripLeadingSlashes s).data := by
  refine ⟨(s.data.takeWhile (fun x => x = '/')).length, ?_⟩
  have htake : s.data.takeWhile (fun x => x = '/') =
      List.replicate (s.data.takeWhile (fun x => x = '/')).length '/' := by
    rw [List.eq_replicate_iff]
    exact ⟨rfl, fun b hb => by simpa using List.mem_takeWhile_imp hb⟩
  conv_lhs => rw [← List.takeWhile_append_dropWhile (p := fun x => x = '/') (l := s.data)]
  rw [← htake]; rfl

/-- C10 counterexample: the claim says the returned URL contains no `'?'`
when `params` is absent, for every base URL; a base URL that itself
contains `'?'` already defeats that. -/
theorem C10_counterexample :
    build_url "a?b" "c" none = "a?b/c" ∧ '?' ∈ "a?b/c".data :=
  ⟨by decide, by decide⟩

/-- C10 (amended): for every base URL and endpoint that themselves contain
no `'?'`, build_url joins them with exactly one `'/'` — stripping every
trailing slash from the base and every leading slash from the endpoint —
and appends a `'?'` and a query string of exactly the parameters whose
value is not None; when params is absent, empty, or all-None, the result
contains no `'?'`. -/
theorem C10_theorem (base ep : String) (ps : List (String × Option String))
    (hb : '?' ∉ base.data) (he : '?' ∉ ep.data) :
    build_url base ep none =
      stripTrailingSlashes base ++ "/" ++ stripLeadingSlashes ep ∧
    (stripTrailingSlashes base).data.getLast? ≠ some '/' ∧
    (stripLeadingSlashes ep).data.head? ≠ some '/' ∧
    (∃ k, base.data = (stripTrailingSlashes base).data ++ List.replicate k '/') ∧
    (∃ k, ep.data = List.replicate k '/' ++ (stripLeadingSlashes ep).data) ∧
    '?' ∉ (build_url base ep none).data ∧
    (filterNoneValues ps = [] → build_url base ep (some ps) = build_url base ep none) ∧
    (filterNoneValues ps ≠ [] →
      build_url base ep (some ps) =
        build_url base ep none ++ "?" ++ urlencode (filterNoneValues ps)) := by
  have hjoin : (build_url base ep none).data =
      (stripTrailingSlashes base).data ++ '/' :: (stripLeadingSlashes ep).data := by
    show (stripTrailingSlashes base ++ "/" ++ stripLeadingSlashes ep).data = _
    simp [String.data_append]
  refine ⟨rfl, stripTrailingSlashes_no_trailing base,
    stripLeadingSlashes_no_leading ep,
    stripTrailingSlashes_decomp base, stripLeadingSlashes_decomp ep, ?_, ?_, ?_⟩
  · rw [hjoin]
    intro hmem
    rcases List.mem_append.mp hmem with h | h
    · exact hb (mem_stripTrailingSlashes h)
    · rcases List.mem_cons.mp h with h | h
      · exact absurd h (by decide)
      · exact he (mem_stripLeadingSlashes h)
  · intro hf
    simp only [build_url]
    split
    · rfl
    · split
      · rfl
      · rename_i hne
        exact absurd (by simp [hf]) hne
  · intro hf
    simp only [build_url]
    split
    · rename_i hemp
      rw [List.isEmpty_iff] at hemp
      exact absurd (by simp [hemp, filterNoneValues]) hf
    · split
      · rename_i hfe
        rw [List.isEmpty_iff] at hfe
        exact absurd hfe hf
      · rfl

/-- C10 witness: evaluation at a concrete base, endpoint, and parameter
map holding one non-None and one None parameter. -/
theorem C10_witness :
    ('?' ∉ "https://api.schwabapi.com/".data) ∧
    ('?' ∉ "/v1/quotes".data) ∧
    (build_url "https://api.schwabapi.com/" "/v1/quotes"
        (some [("symbols", some "AAPL"), ("fields", none)]) =
      build_url "https://api.schwabapi.com/" "/v1/quotes" none ++ "?" ++
        urlencode (filterNoneValues [("symbols", some "AAPL"), ("fields", none)])) ∧
    '?' ∉ (build_url "https://api.schwabapi.com/" "/v1/quotes" none).data :=
  ⟨by decide, by decide,
   ( C10_theorem "https://api.schwabapi.com/" "/v1/quotes"
      [("symbols", some "AAPL"), ("fields", none)]
      (by decide) (by decide)).2.2.2.2.2.2.2 (by decide),
   ( C10_theorem "https://api.schwabapi.com/" "/v1/quotes"
      [("symbols", some "AAPL"), ("fields", none)]
      (by decide) (by decide)).2.2.2.2.2.1⟩

end SchwabPy
